import Mathlib

/-!
Shallow embedding of `recognizer/data/training_dataset.py` (Martoko/kanji-recognizer):
the curriculum-based synthetic training-image generator.

Python floats are modelled as rationals, PIL images as a mode/size record carrying a
symbolic trace of the drawing operations applied to them, and every call into the
`random` module as an explicitly passed draw outcome, so theorems quantify over all
random outcomes.  Fallible Python primitives return `Option`/`Except`.  The module
`recognizer/data/fonts.py` is not among the sources; `FontInfo` is modelled from the
spec (sections 3 and 4.1).
-/

set_option linter.unusedVariables false

namespace KanjiRec

/-- Python `int(x)` applied to a float: truncation toward zero, on `ℚ`. -/
def pyInt (q : ℚ) : ℤ := if 0 ≤ q then ⌊q⌋ else ⌈q⌉

/-- Python `round(x)` applied to a float: round half to even. -/
def pyRound (q : ℚ) : ℤ :=
  if q - ⌊q⌋ < 1/2 then ⌊q⌋
  else if 1/2 < q - ⌊q⌋ then ⌊q⌋ + 1
  else if 2 ∣ ⌊q⌋ then ⌊q⌋ else ⌊q⌋ + 1

/-- Python `a // b` floor division of floats, as the integer it denotes. -/
def pyFloorDiv (a b : ℚ) : ℤ := ⌊a / b⌋

/-- Embeds `random.randint(a, b)`: uniform on the inclusive range; raises `ValueError` when
`b < a`.  `d` is the draw outcome. -/
def pyRandint (a b : ℤ) (d : ℕ) : Option ℤ :=
  if b < a then none else some (a + (d : ℤ) % (b - a + 1))

/-- Embeds `random.randrange(0, n)`: raises `ValueError` when the range is empty. -/
def pyRandrange (n : ℕ) (d : ℕ) : Option ℕ :=
  if n = 0 then none else some (d % n)

/-- Embeds `random.choice(l)`: uniform element; raises `IndexError` on an empty sequence. -/
def pyChoice {α : Type} (l : List α) (d : ℕ) : Option α := l.get? (d % l.length)

/-- Integer-weighted population expansion backing `random.choices`. -/
def weightedExpand {α : Type} (items : List α) (weights : List ℕ) : List α :=
  (items.zip weights).flatMap (fun p => List.replicate p.2 p.1)

/-- Embeds `random.choices(items, weights=w)[0]`: one weighted draw.  When the source calls
`random.choices` without a `weights` argument, every item has weight 1. -/
def pyChoices {α : Type} (items : List α) (weights : List ℕ) (d : ℕ) : Option α :=
  pyChoice (weightedExpand items weights) d

/-- Embeds `os.path.basename` for `/`-separated paths: the text after the last slash. -/
def basename (p : String) : String :=
  String.mk (p.data.foldl (fun acc c => if c = '/' then [] else acc ++ [c]) [])

/-- A PIL fill color: an RGB triple or a single-channel gray value. -/
inductive Ink : Type
  | rgb (r g b : ℕ)
  | gray (v : ℕ)
deriving DecidableEq

def WHITE_COLOR : Ink := .rgb 255 255 255

def BLACK_COLOR : Ink := .rgb 0 0 0

/-- Embeds `random_color()`: three `randint(0, 255)` draws, passed as one outcome triple. -/
def random_color (d : ℕ × ℕ × ℕ) : Ink := .rgb d.1 d.2.1 d.2.2

/-- Modelled from the spec: `FontInfo` (defined in the absent `fonts.py`) owns a font
file path, the set of glyphs it can render (`supported_glyphs`, independent of size),
and a per-size cache of rendered font handles whose text metrics are the abstract
`bbox` function (size, anchor, text ↦ (left, top, right, bottom)).  It is a plain
attribute record. -/
structure FontInfo : Type where
  path : String
  supported_glyphs : List Char
  bbox : ℤ → String → List Char → ℤ × ℤ × ℤ × ℤ

/-- Modelled from the spec: item subscription `font_info[key]` is not an operation of
the `FontInfo` attribute record, so it produces no value (a `TypeError` in Python). -/
def FontInfo.getItem (fi : FontInfo) (key : String) : Option String := none

/-- A rendered font handle `font_info.get(size)`; the per-size cache memoizes handles
with identical metrics, so the handle is modelled as the (font, size) pair. -/
structure RenderedFont : Type where
  info : FontInfo
  size : ℤ

def FontInfo.get (fi : FontInfo) (size : ℤ) : RenderedFont := ⟨fi, size⟩

def RenderedFont.getbbox (f : RenderedFont) (anchor : String) (text : List Char) :
    ℤ × ℤ × ℤ × ℤ := f.info.bbox f.size anchor text

/-- The drawing-operation trace of a PIL image: each drawing call adds a layer. -/
inductive Content : Type
  | flat (color : Ink)
  | resizeCrop (src : Content) (left top right bottom : ℤ) (w h : ℕ)
  | noise (w h : ℕ)
  | blended (base top : Content) (alpha : ℚ)
  | text (base : Content) (x y : ℚ) (s : List Char) (font : RenderedFont)
      (fill : Ink) (anchor : String)
  | rect (base : Content) (x0 y0 x1 y1 : ℚ) (fill : Ink)
  | line (base : Content) (x0 y0 x1 y1 : ℚ) (fill : Ink) (width : ℤ)

structure Image : Type where
  mode : String
  width : ℕ
  height : ℕ
  content : Content

/-- Embeds `Image.new(mode, (w, h), color=color)`. -/
def Image.new (mode : String) (w h : ℕ) (color : Ink) : Image := ⟨mode, w, h, .flat color⟩

/-- Embeds `ImageDraw.Draw(im).text(xy, s, font=font, fill=fill, anchor=anchor)`. -/
def drawText (im : Image) (xy : ℚ × ℚ) (s : List Char) (font : RenderedFont)
    (fill : Ink) (anchor : String) : Image :=
  { im with content := .text im.content xy.1 xy.2 s font fill anchor }

/-- Embeds `ImageDraw.Draw(im).rectangle((c0, c1), fill=fill)`. -/
def drawRect (im : Image) (c0 c1 : ℚ × ℚ) (fill : Ink) : Image :=
  { im with content := .rect im.content c0.1 c0.2 c1.1 c1.2 fill }

/-- Embeds `ImageDraw.Draw(im).line((c0, c1), fill=fill, width=width)`. -/
def drawLine (im : Image) (c0 c1 : ℚ × ℚ) (fill : Ink) (width : ℤ) : Image :=
  { im with content := .line im.content c0.1 c0.2 c1.1 c1.2 fill width }

/-- Embeds `random_noise(width, height)`: an image of per-pixel uniform random colors. -/
def random_noise (w h : ℕ) : Image := ⟨"RGB", w, h, .noise w h⟩

/-- Embeds `Image.blend(a, b, alpha)`. -/
def Image.blend (a b : Image) (alpha : ℚ) : Image :=
  { a with content := .blended a.content b.content alpha }

/-- How a generation call ends abnormally: a raised exception (`runtime`, carrying
the exception kind) or a printed diagnostic followed by `exit(-1)` (`fatal`). -/
inductive GenError : Type
  | runtime (kind : String)
  | fatal (diagnostic : String)
deriving DecidableEq

/-- One output unit: the `(image, label, region_score)` triple. -/
structure Sample : Type where
  image : Image
  label : ℕ
  region_score : Image

/-- Lift the outcome of a fallible Python primitive into the generator, raising the
named exception when it has no value. -/
def need {α : Type} (kind : String) : Option α → Except GenError α
  | some a => .ok a
  | none => .error (.runtime kind)

/-- The draw outcomes consumed by one `eat_sides` call. -/
structure EatRand : Type where
  colorD : ℕ × ℕ × ℕ
  (leftExt rightExt topExt botExt : ℕ)

/-- A filled axis-aligned rectangle handed to `ImageDraw.rectangle`. -/
structure Rect : Type where
  x0 : ℤ
  y0 : ℤ
  x1 : ℤ
  y1 : ℤ
deriving DecidableEq

/-- The pixels filled by `ImageDraw.rectangle(((x0,y0),(x1,y1)), fill=...)`: the
fill normalizes the corner order in each axis. -/
def inRect (R : Rect) (x y : ℤ) : Prop :=
  min R.x0 R.x1 ≤ x ∧ x ≤ max R.x0 R.x1 ∧ min R.y0 R.y1 ≤ y ∧ y ≤ max R.y0 R.y1

instance (R : Rect) (x y : ℤ) : Decidable (inRect R x y) := by
  unfold inRect; infer_instance

/-- Embeds `eat_sides`: rounds the supplied box, then draws one solid rectangle inward from
each canvas edge with a random extent; returns the four rectangles in drawing
order. -/
def eat_rects (w h : ℤ) (left right top bottom : ℚ) (r : EatRand) :
    Option (List Rect) := do
  let left := pyRound left
  let right := pyRound right
  let top := pyRound top
  let bottom := pyRound bottom
  let a ← pyRandint 0 left r.leftExt
  let b ← pyRandint right w r.rightExt
  let c ← pyRandint 0 top r.topExt
  let d ← pyRandint bottom h r.botExt
  pure [⟨0, 0, a, h⟩, ⟨w, 0, b, h⟩, ⟨0, 0, w, c⟩, ⟨0, h, w, d⟩]

/-- Embeds `eat_sides` acting on the image trace. -/
def eat_sides (image : Image) (left right top bottom : ℚ) (r : EatRand) :
    Option Image := do
  let rects ← eat_rects (image.width : ℤ) (image.height : ℤ) left right top bottom r
  pure (rects.foldl
    (fun im R => drawRect im ((R.x0 : ℚ), (R.y0 : ℚ)) ((R.x1 : ℚ), (R.y1 : ℚ))
      (random_color r.colorD))
    image)

/-- The draw outcomes consumed by one `draw_outlined_text` call. -/
structure OutlineRand : Type where
  colorD : ℕ × ℕ × ℕ
  thickQ : ℚ

/-- The draw outcomes consumed by one `draw_underlined_text` call. -/
structure UnderlineRand : Type where
  widthQ : ℚ
  jitterQ : ℚ

/-- The offsets `(dx, dy)` for `dx in range(-t, 1+t)`, `dy in range(-t, 1+t)`. -/
def outlineOffsets (t : ℤ) : List (ℤ × ℤ) :=
  ((List.range (2 * t + 1).toNat).map (fun i => (i : ℤ) - t)).flatMap
    (fun dx => ((List.range (2 * t + 1).toNat).map (fun i => (i : ℤ) - t)).map
      (fun dy => (dx, dy)))

/-- Embeds `draw_outlined_text`: the text at every offset of a square neighborhood in the
outline color, then once more at the unshifted position in the foreground color.
`outline_fill` defaults to `random_color()` and `outline_thickness` to
`1 + round(abs(normal(1)))`; both call sites pass neither. -/
def draw_outlined_text (im : Image) (xy : ℚ × ℚ) (text : List Char)
    (font : RenderedFont) (fill : Ink) (anchor : String) (r : OutlineRand) : Image :=
  let outline_fill := random_color r.colorD
  let outline_thickness := 1 + pyRound |r.thickQ|
  let im := (outlineOffsets outline_thickness).foldl
    (fun d p => drawText d (xy.1 + (p.1 : ℚ), xy.2 + (p.2 : ℚ)) text font
      outline_fill anchor) im
  drawText im xy text font fill anchor

/-- Embeds `draw_underlined_text`: the text, then a horizontal line spanning the text
bounding box, vertically jittered below the baseline. -/
def draw_underlined_text (im : Image) (xy : ℚ × ℚ) (text : List Char)
    (font : RenderedFont) (fill : Ink) (anchor : String) (r : UnderlineRand) : Image :=
  let bb := font.getbbox anchor text
  let left := bb.1
  let right := bb.2.2.1
  let bottom := bb.2.2.2
  let width := pyRound |r.widthQ|
  let jitter := r.jitterQ * ((font.size : ℚ) / 20)
  let im := drawText im xy text font fill anchor
  drawLine im
    (xy.1 + (left : ℚ), xy.2 + (bottom : ℚ) + jitter)
    (xy.1 + (right : ℚ), xy.2 + (bottom : ℚ) + jitter) fill width

/-- The dataset object built by `RecognizerTrainingDataset.__init__`. -/
structure RecognizerTrainingDataset : Type where
  font_infos : List FontInfo
  transform : Option (Image → Image)
  characters : List Char
  background_images : List Image
  stage : ℚ

abbrev Dataset := RecognizerTrainingDataset

/-- Embeds `RecognizerTrainingDataset.__init__`: records the font catalog, the transform,
the character set and the loaded background images, and sets `stage = 0`.  It
performs no validation of any catalog (folder contents are modelled as the
already-loaded lists). -/
def RecognizerTrainingDataset.init (font_infos : List FontInfo)
    (background_images : List Image) (character_set : List Char)
    (transform : Option (Image → Image)) : Dataset :=
  { font_infos := font_infos, transform := transform, characters := character_set,
    background_images := background_images, stage := 0 }

/-- Embeds `fonts_supporting_glyph`: the fonts of the catalog whose supported-glyph set
contains the glyph. -/
def RecognizerTrainingDataset.fonts_supporting_glyph (self : Dataset) (glyph : Char) :
    List FontInfo :=
  self.font_infos.filter (fun font => glyph ∈ font.supported_glyphs)

/-- The draw outcomes consumed by one background request. -/
structure BgRand : Type where
  modeD : ℕ
  baseR : ℚ
  bgImgD : ℕ
  (crop1 crop2 crop3 crop4 : ℕ)
  colorD : ℕ × ℕ × ℕ
  blendQ : ℚ

/-- Embeds `random_background_image`: a random axis-aligned crop (at least 1×1) of a random
stored background image, rescaled to the target size. -/
def RecognizerTrainingDataset.random_background_image (self : Dataset)
    (width height : ℕ) (r : BgRand) : Option Image := do
  let background ← pyChoice self.background_images r.bgImgD
  let bg_left ← pyRandint 0 ((background.width : ℤ) - 2) r.crop1
  let bg_right ← pyRandint (bg_left + 1) (background.width : ℤ) r.crop2
  let bg_top ← pyRandint 0 ((background.height : ℤ) - 2) r.crop3
  let bg_bottom ← pyRandint (bg_top + 1) (background.height : ℤ) r.crop4
  pure { mode := background.mode, width := width, height := height,
         content := .resizeCrop background.content bg_left bg_top bg_right bg_bottom
           width height }

/-- The three composition modes of `generate_background`, in source order. -/
def backgroundModes : List String := ["noise", "img", "plain"]

/-- The mode selection `random.choices(["noise", "img", "plain"])[0]`: the source
passes no `weights` argument, so every mode has weight 1. -/
def chooseBackgroundMode (d : ℕ) : String :=
  (pyChoices backgroundModes [1, 1, 1] d).getD ""

/-- The number of draw outcomes in one residue cycle of the expanded population that
select a given mode: the effective selection weight of that mode. -/
def modeDrawCount (m : String) : ℕ :=
  ((List.range (weightedExpand backgroundModes [1, 1, 1]).length).filter
    (fun d => chooseBackgroundMode d = m)).length

/-- Embeds `generate_background`: picks a mode; `noise` blends per-pixel noise over a flat
color or a background crop, `img` is a background crop, `plain` is a flat color. -/
def RecognizerTrainingDataset.generate_background (self : Dataset) (width height : ℕ)
    (r : BgRand) : Option Image := do
  let choice := chooseBackgroundMode r.modeD
  if choice = "noise" then do
    let image ← if r.baseR > 1/2 then self.random_background_image width height r
      else pure (Image.new "RGB" width height (random_color r.colorD))
    pure (Image.blend image (random_noise width height) (min |r.blendQ| 1))
  else if choice = "img" then
    self.random_background_image width height r
  else
    pure (Image.new "RGB" width height (random_color r.colorD))

/-- Embeds `generate_region_score`: a half-resolution single-channel canvas with the halved
bounding-box rectangle filled at maximum intensity. -/
def RecognizerTrainingDataset.generate_region_score (width height : ℕ)
    (top_left bottom_right : ℚ × ℚ) : Image :=
  let region_score := Image.new "L" (width / 2) (height / 2) (Ink.gray 0)
  drawRect region_score
    ((pyFloorDiv top_left.1 2 : ℚ), (pyFloorDiv top_left.2 2 : ℚ))
    ((pyFloorDiv bottom_right.1 2 : ℚ), (pyFloorDiv bottom_right.2 2 : ℚ))
    (Ink.gray 255)

/-- Embeds `generate_only_char`: the labeled glyph alone, drawn onto a blank 128×128
single-channel canvas; the passed fill is overridden with `(255,)` by the source
(it assigns the fill keyword before drawing). -/
def RecognizerTrainingDataset.generate_only_char (xy : ℚ × ℚ) (text : List Char)
    (font : RenderedFont) (fill : Ink) (anchor : String) : Image :=
  let region_score := Image.new "L" 128 128 (Ink.gray 0)
  drawText region_score xy text font (Ink.gray 255) anchor

/-- Embeds `random_font_size`: `int` of one of four normal draws (the outcomes are the four
rationals), chosen with weights 10:3:1:1. -/
def RecognizerTrainingDataset.random_font_size (d : ℕ) (n15 n20 n35 n50 : ℚ) :
    Option ℤ :=
  (pyChoices [n15, n20, n35, n50] [10, 3, 1, 1] d).map pyInt

/-- The stage 6–8 validation loop: for each character of the composed text, measure
its own bounding box and halt via `mkErr` when its width or height is zero. -/
def checkChars (font : RenderedFont) (mkErr : Char → GenError) :
    List Char → Except GenError Unit
  | [] => .ok ()
  | c :: rest =>
    let bb := font.getbbox "lt" [c]
    if bb.2.2.1 = 0 ∨ bb.2.2.2 = 0 then .error (mkErr c) else checkChars font mkErr rest

/-- The stage-6 missing-glyph halt: its diagnostic f-string subscripts
`font_info[...]`, which the `FontInfo` record does not support, so a `TypeError` is
raised while building the message and nothing is printed. -/
def stage6MissingGlyph (font_info : FontInfo) (c : Char) : GenError :=
  match font_info.getItem "path" with
  | none => .runtime "TypeError"
  | some p =>
    .fatal (String.singleton (Char.ofNat 39) ++ String.singleton c ++
      String.singleton (Char.ofNat 39) ++ " is missing from " ++ basename p)

/-- The stage-7/8 missing-glyph halt: prints a diagnostic naming the character and
the font file, then exits. -/
def stage78MissingGlyph (font_info : FontInfo) (c : Char) : GenError :=
  .fatal (String.singleton c ++ " is missing from " ++ basename font_info.path)

/-- The draw outcomes consumed by one floating-distractor placement. -/
structure FloatRand : Type where
  fontD : ℕ
  sizeD : ℕ
  (n15 n20 n35 n50 : ℚ)
  (yTopD yBotD xD : ℕ)
  (pickX1D pickY1D pickX2D pickY2D : ℕ)
  outlineR : ℚ
  outline : OutlineRand
  fillD : ℕ × ℕ × ℕ

/-- The draw outcomes consumed by one stage-generator call. -/
structure StageRand : Type where
  labelD : ℕ
  fontD : ℕ
  invertR : ℚ
  (bgColorD fgColorD regionFillD : ℕ × ℕ × ℕ)
  sizeD : ℕ
  (n15 n20 n35 n50 : ℚ)
  (xR yR : ℚ)
  (beforeCountD afterCountD : ℕ)
  (beforeD afterD : ℕ → ℕ)
  floatCountQ : ℚ
  floatD : ℕ → ℕ
  (outlineR eatR : ℚ)
  outline : OutlineRand
  underline : UnderlineRand
  eat : EatRand
  bg : BgRand
  effectD : ℕ
  flt : ℕ → FloatRand

/-- Stage 0: very simple fixed-size characters, black on white. -/
def RecognizerTrainingDataset.generate_stage_0 (self : Dataset) (r : StageRand) :
    Except GenError Sample := do
  let label ← need "ValueError" (pyRandrange self.characters.length r.labelD)
  let character := self.characters.getD label ' '
  let font_info ← need "IndexError" ((self.fonts_supporting_glyph character).get? 0)
  let font_size : ℤ := 32
  let font := font_info.get font_size
  let bb := font.getbbox "lt" [character]
  let width := bb.2.2.1
  let height := bb.2.2.2
  let sample := Image.new "RGB" 128 128 WHITE_COLOR
  let sample := drawText sample (64, 64) [character] font BLACK_COLOR "mm"
  let region_score := RecognizerTrainingDataset.generate_region_score 128 128
    (64 - (width : ℚ) / 2, 64 - (height : ℚ) / 2)
    (64 + (width : ℚ) / 2, 64 + (height : ℚ) / 2)
  let region_score := RecognizerTrainingDataset.generate_only_char (64, 64) [character]
    font BLACK_COLOR "mm"
  match self.transform with
  | none => pure ⟨sample, label, region_score⟩
  | some t => pure ⟨t sample, label, t region_score⟩

/-- Stage 1: 50/50 chance between black on white and white on black. -/
def RecognizerTrainingDataset.generate_stage_1 (self : Dataset) (r : StageRand) :
    Except GenError Sample := do
  let label ← need "ValueError" (pyRandrange self.characters.length r.labelD)
  let character := self.characters.getD label ' '
  let font_info ← need "IndexError" ((self.fonts_supporting_glyph character).get? 0)
  let font_size : ℤ := 32
  let font := font_info.get font_size
  let inverted := r.invertR > 1/2
  let bb := font.getbbox "lt" [character]
  let width := bb.2.2.1
  let height := bb.2.2.2
  let sample := Image.new "RGB" 128 128 (if inverted then BLACK_COLOR else WHITE_COLOR)
  let sample := drawText sample (64, 64) [character] font
    (if inverted then WHITE_COLOR else BLACK_COLOR) "mm"
  let region_score := RecognizerTrainingDataset.generate_region_score 128 128
    (64 - (width : ℚ) / 2, 64 - (height : ℚ) / 2)
    (64 + (width : ℚ) / 2, 64 + (height : ℚ) / 2)
  let region_score := RecognizerTrainingDataset.generate_only_char (64, 64) [character]
    font (if inverted then WHITE_COLOR else BLACK_COLOR) "mm"
  match self.transform with
  | none => pure ⟨sample, label, region_score⟩
  | some t => pure ⟨t sample, label, t region_score⟩

/-- Stage 2: colors are now random. -/
def RecognizerTrainingDataset.generate_stage_2 (self : Dataset) (r : StageRand) :
    Except GenError Sample := do
  let label ← need "ValueError" (pyRandrange self.characters.length r.labelD)
  let character := self.characters.getD label ' '
  let font_info ← need "IndexError" ((self.fonts_supporting_glyph character).get? 0)
  let font_size : ℤ := 32
  let font := font_info.get font_size
  let bb := font.getbbox "lt" [character]
  let width := bb.2.2.1
  let height := bb.2.2.2
  let sample := Image.new "RGB" 128 128 (random_color r.bgColorD)
  let sample := drawText sample (64, 64) [character] font (random_color r.fgColorD) "mm"
  let region_score := RecognizerTrainingDataset.generate_region_score 128 128
    (64 - (width : ℚ) / 2, 64 - (height : ℚ) / 2)
    (64 + (width : ℚ) / 2, 64 + (height : ℚ) / 2)
  let region_score := RecognizerTrainingDataset.generate_only_char (64, 64) [character]
    font (random_color r.regionFillD) "mm"
  match self.transform with
  | none => pure ⟨sample, label, region_score⟩
  | some t => pure ⟨t sample, label, t region_score⟩

/-- Stage 3: font sizes can now vary between two sizes. -/
def RecognizerTrainingDataset.generate_stage_3 (self : Dataset) (r : StageRand) :
    Except GenError Sample := do
  let label ← need "ValueError" (pyRandrange self.characters.length r.labelD)
  let character := self.characters.getD label ' '
  let font_info ← need "IndexError" ((self.fonts_supporting_glyph character).get? 0)
  let font_size ← need "IndexError" (pyChoice [(20 : ℤ), 32] r.sizeD)
  let font := font_info.get font_size
  let bb := font.getbbox "lt" [character]
  let width := bb.2.2.1
  let height := bb.2.2.2
  let sample := Image.new "RGB" 128 128 (random_color r.bgColorD)
  let sample := drawText sample (64, 64) [character] font (random_color r.fgColorD) "mm"
  let region_score := RecognizerTrainingDataset.generate_region_score 128 128
    (64 - (width : ℚ) / 2, 64 - (height : ℚ) / 2)
    (64 + (width : ℚ) / 2, 64 + (height : ℚ) / 2)
  let region_score := RecognizerTrainingDataset.generate_only_char (64, 64) [character]
    font (random_color r.regionFillD) "mm"
  match self.transform with
  | none => pure ⟨sample, label, region_score⟩
  | some t => pure ⟨t sample, label, t region_score⟩

/-- Stage 4: completely random font size, and random font. -/
def RecognizerTrainingDataset.generate_stage_4 (self : Dataset) (r : StageRand) :
    Except GenError Sample := do
  let label ← need "ValueError" (pyRandrange self.characters.length r.labelD)
  let character := self.characters.getD label ' '
  let font_info ← need "IndexError"
    (pyChoice (self.fonts_supporting_glyph character) r.fontD)
  let font_size ← need "IndexError"
    (RecognizerTrainingDataset.random_font_size r.sizeD r.n15 r.n20 r.n35 r.n50)
  let font_size := max 8 font_size
  let font := font_info.get font_size
  let bb := font.getbbox "lt" [character]
  let width := bb.2.2.1
  let height := bb.2.2.2
  let sample := Image.new "RGB" 128 128 (random_color r.bgColorD)
  let sample := drawText sample (64, 64) [character] font (random_color r.fgColorD) "mm"
  let region_score := RecognizerTrainingDataset.generate_region_score 128 128
    (64 - (width : ℚ) / 2, 64 - (height : ℚ) / 2)
    (64 + (width : ℚ) / 2, 64 + (height : ℚ) / 2)
  let region_score := RecognizerTrainingDataset.generate_only_char (64, 64) [character]
    font (random_color r.regionFillD) "mm"
  match self.transform with
  | none => pure ⟨sample, label, region_score⟩
  | some t => pure ⟨t sample, label, t region_score⟩

/-- Stage 5: random character location, keeping part of the character centered. -/
def RecognizerTrainingDataset.generate_stage_5 (self : Dataset) (r : StageRand) :
    Except GenError Sample := do
  let label ← need "ValueError" (pyRandrange self.characters.length r.labelD)
  let character := self.characters.getD label ' '
  let font_info ← need "IndexError"
    (pyChoice (self.fonts_supporting_glyph character) r.fontD)
  let font_size ← need "IndexError"
    (RecognizerTrainingDataset.random_font_size r.sizeD r.n15 r.n20 r.n35 r.n50)
  let font_size := max 8 font_size
  let font := font_info.get font_size
  let bb := font.getbbox "lt" [character]
  let width := bb.2.2.1
  let height := bb.2.2.2
  let x_offset := pyInt ((((width : ℚ) / 2) - r.xR * (width : ℚ)) * (8/10))
  let y_offset := pyInt ((((height : ℚ) / 2) - r.yR * (height : ℚ)) * (8/10))
  let sample := Image.new "RGB" 128 128 (random_color r.bgColorD)
  let sample := drawText sample (64 + (x_offset : ℚ), 64 + (y_offset : ℚ)) [character]
    font (random_color r.fgColorD) "mm"
  let region_score := RecognizerTrainingDataset.generate_region_score 128 128
    (64 + (x_offset : ℚ) - (width : ℚ) / 2, 64 + (y_offset : ℚ) - (height : ℚ) / 2)
    (64 + (x_offset : ℚ) + (width : ℚ) / 2, 64 + (y_offset : ℚ) + (height : ℚ) / 2)
  let region_score := RecognizerTrainingDataset.generate_only_char
    (64 + (x_offset : ℚ), 64 + (y_offset : ℚ)) [character] font
    (random_color r.regionFillD) "mm"
  match self.transform with
  | none => pure ⟨sample, label, region_score⟩
  | some t => pure ⟨t sample, label, t region_score⟩

/-- Stage 6: characters before and after, simulating a sentence. -/
def RecognizerTrainingDataset.generate_stage_6 (self : Dataset) (r : StageRand) :
    Except GenError Sample := do
  let label ← need "ValueError" (pyRandrange self.characters.length r.labelD)
  let character := self.characters.getD label ' '
  let font_info ← need "IndexError"
    (pyChoice (self.fonts_supporting_glyph character) r.fontD)
  let font_size ← need "IndexError"
    (RecognizerTrainingDataset.random_font_size r.sizeD r.n15 r.n20 r.n35 r.n50)
  let font_size := max 8 font_size
  let font := font_info.get font_size
  let before_count ← need "ValueError" (pyRandint 0 10 r.beforeCountD)
  let after_count ← need "ValueError" (pyRandint 0 10 r.afterCountD)
  let total_count := before_count + after_count + 1
  let before ← (List.range before_count.toNat).mapM
    (fun i => need "IndexError" (pyChoice font_info.supported_glyphs (r.beforeD i)))
  let after ← (List.range after_count.toNat).mapM
    (fun i => need "IndexError" (pyChoice font_info.supported_glyphs (r.afterD i)))
  let text := before ++ character :: after
  let _ ← checkChars font (stage6MissingGlyph font_info) text
  let bb := font.getbbox "lt" text
  let right := bb.2.2.1
  let bottom := bb.2.2.2
  let character_width : ℚ := (right : ℚ) / (total_count : ℚ)
  let character_height : ℚ := (bottom : ℚ)
  let x : ℚ := 64 - character_width / 2 - character_width * (before_count : ℚ)
  let x_offset := pyInt (((character_width / 2) - r.xR * character_width) * (8/10))
  let y_offset := pyInt (((character_height / 2) - r.yR * character_height) * (8/10))
  let sample := Image.new "RGB" 128 128 (random_color r.bgColorD)
  let sample := drawText sample (x + (x_offset : ℚ), 64 + (y_offset : ℚ)) text font
    (random_color r.fgColorD) "lm"
  let region_score := RecognizerTrainingDataset.generate_region_score 128 128
    (64 + (x_offset : ℚ) - character_width / 2, 64 + (y_offset : ℚ) - character_width / 2)
    (64 + (x_offset : ℚ) + character_width / 2, 64 + (y_offset : ℚ) + character_width / 2)
  let region_score := RecognizerTrainingDataset.generate_only_char
    (64 + (x_offset : ℚ), 64 + (y_offset : ℚ)) [character] font
    (random_color r.regionFillD) "mm"
  match self.transform with
  | none => pure ⟨sample, label, region_score⟩
  | some t => pure ⟨t sample, label, t region_score⟩

/-- Stage 7: borders, cropped sides, real images as background with noise. -/
def RecognizerTrainingDataset.generate_stage_7 (self : Dataset) (r : StageRand) :
    Except GenError Sample := do
  let label ← need "ValueError" (pyRandrange self.characters.length r.labelD)
  let character := self.characters.getD label ' '
  let font_info ← need "IndexError"
    (pyChoice (self.fonts_supporting_glyph character) r.fontD)
  let font_size ← need "IndexError"
    (RecognizerTrainingDataset.random_font_size r.sizeD r.n15 r.n20 r.n35 r.n50)
  let font_size := max 8 font_size
  let font := font_info.get font_size
  let before_count ← need "ValueError" (pyRandint 0 10 r.beforeCountD)
  let after_count ← need "ValueError" (pyRandint 0 10 r.afterCountD)
  let total_count := before_count + after_count + 1
  let before ← (List.range before_count.toNat).mapM
    (fun i => need "IndexError" (pyChoice font_info.supported_glyphs (r.beforeD i)))
  let after ← (List.range after_count.toNat).mapM
    (fun i => need "IndexError" (pyChoice font_info.supported_glyphs (r.afterD i)))
  let text := before ++ character :: after
  let _ ← checkChars font (stage78MissingGlyph font_info) text
  let bb := font.getbbox "lt" text
  let right := bb.2.2.1
  let bottom := bb.2.2.2
  let character_width : ℚ := (right : ℚ) / (total_count : ℚ)
  let character_height : ℚ := (bottom : ℚ)
  let x : ℚ := 64 - character_width / 2 - character_width * (before_count : ℚ)
  let x_offset := pyInt (((character_width / 2) - r.xR * character_width) * (8/10))
  let y_offset := pyInt (((character_height / 2) - r.yR * character_height) * (8/10))
  let sample ← need "IndexError" (self.generate_background 128 128 r.bg)
  let sample :=
    if r.outlineR > 9/10 then
      draw_outlined_text sample (x + (x_offset : ℚ), 64 + (y_offset : ℚ)) text font
        (random_color r.fgColorD) "lm" r.outline
    else
      drawText sample (x + (x_offset : ℚ), 64 + (y_offset : ℚ)) text font
        (random_color r.fgColorD) "lm"
  let sample ←
    if r.eatR > 9/10 then
      need "ValueError" (eat_sides sample
        (64 + (x_offset : ℚ) - character_width / 2)
        (64 + (x_offset : ℚ) + character_width / 2)
        (64 + (y_offset : ℚ) - character_height / 2)
        (64 + (y_offset : ℚ) + character_height / 2) r.eat)
    else pure sample
  let region_score := RecognizerTrainingDataset.generate_region_score 128 128
    (64 + (x_offset : ℚ) - character_width / 2, 64 + (y_offset : ℚ) - character_width / 2)
    (64 + (x_offset : ℚ) + character_width / 2, 64 + (y_offset : ℚ) + character_width / 2)
  let region_score := RecognizerTrainingDataset.generate_only_char
    (64 + (x_offset : ℚ), 64 + (y_offset : ℚ)) [character] font
    (random_color r.regionFillD) "mm"
  match self.transform with
  | none => pure ⟨sample, label, region_score⟩
  | some t => pure ⟨t sample, label, t region_score⟩

/-- The candidate vertical positions for one floating distractor, built exactly as in
the source: start from an empty list, append a draw from the band above the main
text line when that band is viable, then append a draw from the band below when that
one is; each viability guard uses true division while the corresponding `randint`
bound uses floor division. -/
def floatingBands (y bottom f_bottom : ℤ) (yTopD yBotD : ℕ) :
    Except GenError (List ℤ) := do
  let floating_y : List ℤ := []
  let floating_y ←
    if (y : ℚ) - (bottom : ℚ) / 2 - (f_bottom : ℚ) > -(f_bottom : ℚ) then do
      let v ← need "ValueError"
        (pyRandint (-f_bottom) (y - Int.fdiv bottom 2 - f_bottom) yTopD)
      pure (floating_y ++ [v])
    else pure floating_y
  if (128 : ℚ) > (y : ℚ) + (bottom : ℚ) / 2 then do
    let v ← need "ValueError" (pyRandint (y + Int.fdiv bottom 2) 128 yBotD)
    pure (floating_y ++ [v])
  else pure floating_y

/-- The stage-8 floating-distractor placement loop: each distractor gets a random
font and size; the vertical bands above and below the main text line are the
candidate positions, and a distractor with no valid band is skipped.  The
non-outlined branch of the source draws with the main font, not the distractor
font. -/
def floatingPass (self : Dataset) (mainFont : RenderedFont) (y bottom : ℤ)
    (fr : ℕ → FloatRand) : List Char → ℕ → Image → Except GenError Image
  | [], _, drawing => .ok drawing
  | floating_character :: rest, i, drawing => do
    let flr := fr i
    let font_info ← need "IndexError"
      (pyChoice (self.fonts_supporting_glyph floating_character) flr.fontD)
    let font_size ← need "IndexError"
      (RecognizerTrainingDataset.random_font_size flr.sizeD flr.n15 flr.n20 flr.n35
        flr.n50)
    let font_size := max 8 font_size
    let floating_font := font_info.get font_size
    let fbb := floating_font.getbbox "lt" [floating_character]
    let f_right := fbb.2.2.1
    let f_bottom := fbb.2.2.2
    let floating_y ← floatingBands y bottom f_bottom flr.yTopD flr.yBotD
    if floating_y.isEmpty then
      floatingPass self mainFont y bottom fr rest (i + 1) drawing
    else do
      let xv ← need "ValueError" (pyRandint (-f_right) 128 flr.xD)
      let floating_x : List ℤ := [xv]
      let drawing ←
        if flr.outlineR > 9/10 then do
          let px ← need "IndexError" (pyChoice floating_x flr.pickX1D)
          let py ← need "IndexError" (pyChoice floating_y flr.pickY1D)
          pure (draw_outlined_text drawing ((px : ℚ), (py : ℚ)) [floating_character]
            floating_font (random_color flr.fillD) "lt" flr.outline)
        else do
          let px ← need "IndexError" (pyChoice floating_x flr.pickX2D)
          let py ← need "IndexError" (pyChoice floating_y flr.pickY2D)
          pure (drawText drawing ((px : ℚ), (py : ℚ)) [floating_character] mainFont
            (random_color flr.fillD) "lt")
      floatingPass self mainFont y bottom fr rest (i + 1) drawing

/-- Stage 8: characters placed randomly on the screen, underlined text. -/
def RecognizerTrainingDataset.generate_stage_8 (self : Dataset) (r : StageRand) :
    Except GenError Sample := do
  let character_index ← need "ValueError"
    (pyRandrange self.characters.length r.labelD)
  let character := self.characters.getD character_index ' '
  let font_info ← need "IndexError"
    (pyChoice (self.fonts_supporting_glyph character) r.fontD)
  let font_size ← need "IndexError"
    (RecognizerTrainingDataset.random_font_size r.sizeD r.n15 r.n20 r.n35 r.n50)
  let font_size := max 8 font_size
  let font := font_info.get font_size
  let before_count ← need "ValueError" (pyRandint 0 10 r.beforeCountD)
  let after_count ← need "ValueError" (pyRandint 0 10 r.afterCountD)
  let total_count := before_count + after_count + 1
  let before ← (List.range before_count.toNat).mapM
    (fun i => need "IndexError" (pyChoice font_info.supported_glyphs (r.beforeD i)))
  let after ← (List.range after_count.toNat).mapM
    (fun i => need "IndexError" (pyChoice font_info.supported_glyphs (r.afterD i)))
  let text := before ++ character :: after
  let floating_count := (pyInt |r.floatCountQ|).toNat
  let floating_characters ← (List.range floating_count).mapM
    (fun i => need "IndexError" (pyChoice font_info.supported_glyphs (r.floatD i)))
  let _ ← checkChars font (stage78MissingGlyph font_info) (text ++ floating_characters)
  let bb := font.getbbox "lt" text
  let right := bb.2.2.1
  let bottom := bb.2.2.2
  let character_width : ℚ := (right : ℚ) / (total_count : ℚ)
  let character_height : ℚ := (bottom : ℚ)
  let x₀ : ℚ := 64 - character_width / 2 - character_width * (before_count : ℚ)
  let x_offset := pyInt (((character_width / 2) - r.xR * character_width) * (8/10))
  let y_offset := pyInt (((character_height / 2) - r.yR * character_height) * (8/10))
  let x : ℚ := x₀ + (x_offset : ℚ)
  let y : ℤ := 64 + y_offset
  let sample ← need "IndexError" (self.generate_background 128 128 r.bg)
  let effect ← need "IndexError"
    (pyChoices ["outline", "underline", "none"] [1, 1, 10] r.effectD)
  let sample :=
    if effect = "outline" then
      draw_outlined_text sample (x, (y : ℚ)) text font (random_color r.fgColorD) "lm"
        r.outline
    else if effect = "underline" then
      draw_underlined_text sample (x, (y : ℚ)) text font (random_color r.fgColorD) "lm"
        r.underline
    else
      drawText sample (x, (y : ℚ)) text font (random_color r.fgColorD) "lm"
  let sample ← floatingPass self font y bottom r.flt floating_characters 0 sample
  let sample ←
    if r.eatR > 9/10 then
      need "ValueError" (eat_sides sample
        (64 + (x_offset : ℚ) - character_width / 2)
        (64 + (x_offset : ℚ) + character_width / 2)
        (64 + (y_offset : ℚ) - character_height / 2)
        (64 + (y_offset : ℚ) + character_height / 2) r.eat)
    else pure sample
  let region_score := RecognizerTrainingDataset.generate_region_score 128 128
    (64 + (x_offset : ℚ) - character_width / 2, 64 + (y_offset : ℚ) - character_width / 2)
    (64 + (x_offset : ℚ) + character_width / 2, 64 + (y_offset : ℚ) + character_width / 2)
  let region_score := RecognizerTrainingDataset.generate_only_char
    (64 + (x_offset : ℚ), 64 + (y_offset : ℚ)) [character] font
    (random_color r.fgColorD) "mm"
  match self.transform with
  | none => pure ⟨sample, character_index, region_score⟩
  | some t => pure ⟨t sample, character_index, t region_score⟩

/-- The dispatch from an integer stage to its generator, for stating properties that
range over all nine stage generators. -/
def stageGenerator (i : ℕ) (self : Dataset) (r : StageRand) : Except GenError Sample :=
  match i with
  | 0 => self.generate_stage_0 r
  | 1 => self.generate_stage_1 r
  | 2 => self.generate_stage_2 r
  | 3 => self.generate_stage_3 r
  | 4 => self.generate_stage_4 r
  | 5 => self.generate_stage_5 r
  | 6 => self.generate_stage_6 r
  | 7 => self.generate_stage_7 r
  | 8 => self.generate_stage_8 r
  | _ => .error (.runtime "NoSuchStage")

/-- The curriculum scheduler step of `generate`: `low = floor(stage)`,
`high = low + 1`; select `low` when the uniform draw exceeds the fractional part,
else `high`; then clamp to at most 8. -/
def selectStage (stage : ℚ) (r : ℚ) : ℤ :=
  let low := ⌊stage⌋
  let high := low + 1
  let s := if r > stage - ⌊stage⌋ then low else high
  min s 8

/-- Embeds `generate`: select an integer stage from the continuous curriculum value, then
dispatch through the nine sequential conditionals; a selected stage matching none of
them falls through and returns `None`. -/
def RecognizerTrainingDataset.generate (self : Dataset) (stageR : ℚ) (r : StageRand) :
    Option (Except GenError Sample) :=
  let stage := selectStage self.stage stageR
  if stage = 0 then some (self.generate_stage_0 r)
  else if stage = 1 then some (self.generate_stage_1 r)
  else if stage = 2 then some (self.generate_stage_2 r)
  else if stage = 3 then some (self.generate_stage_3 r)
  else if stage = 4 then some (self.generate_stage_4 r)
  else if stage = 5 then some (self.generate_stage_5 r)
  else if stage = 6 then some (self.generate_stage_6 r)
  else if stage = 7 then some (self.generate_stage_7 r)
  else if stage = 8 then some (self.generate_stage_8 r)
  else none

/-- Embeds `__getitem__(index)`: ignores its index and calls `generate()` afresh. -/
def RecognizerTrainingDataset.getItem (self : Dataset) (index : ℤ) (stageR : ℚ)
    (r : StageRand) : Option (Except GenError Sample) :=
  self.generate stageR r

instance : Inhabited Ink := ⟨.gray 0⟩

instance : Inhabited FontInfo := ⟨⟨"", [], fun _ _ _ => (0, 0, 0, 0)⟩⟩

instance : Inhabited RenderedFont := ⟨⟨default, 0⟩⟩

instance : Inhabited Content := ⟨.flat default⟩

instance : Inhabited Image := ⟨⟨"", 0, 0, default⟩⟩

instance : Inhabited Sample := ⟨⟨default, 0, default⟩⟩

/-- The sample carried by a successful generator result. -/
def okSample (e : Except GenError Sample) : Sample := (e.toOption).getD default

/-- The width of the region score of a generator result, when it succeeded. -/
def regionWidth (e : Except GenError Sample) : Option ℕ :=
  match e with
  | .ok s => some s.region_score.width
  | .error _ => none

/-- The label of a generator result as surfaced by `generate`/`__getitem__`. -/
def sampleLabel (o : Option (Except GenError Sample)) : Option ℕ :=
  match o with
  | some (.ok s) => some s.label
  | _ => none

/-- A concrete one-font catalog entry for evaluating the generators: every glyph
measures a 10×12 box. -/
def testFont : FontInfo :=
  { path := "fonts/font.ttf", supported_glyphs := ['a', 'b'],
    bbox := fun _ _ _ => (0, 0, 10, 12) }

/-- A concrete dataset: one font, two characters, no backgrounds, no transform. -/
def testDS : Dataset := RecognizerTrainingDataset.init [testFont] [] ['a', 'b'] none

def testOutline : OutlineRand := { colorD := (0, 0, 0), thickQ := 0 }

def testUnderline : UnderlineRand := { widthQ := 0, jitterQ := 0 }

def testEat : EatRand :=
  { colorD := (0, 0, 0), leftExt := 0, rightExt := 0, topExt := 0, botExt := 0 }

def testBg : BgRand :=
  { modeD := 0, baseR := 0, bgImgD := 0, crop1 := 0, crop2 := 0, crop3 := 0,
    crop4 := 0, colorD := (0, 0, 0), blendQ := 0 }

def testFloat : FloatRand :=
  { fontD := 0, sizeD := 0, n15 := 15, n20 := 20, n35 := 35, n50 := 50, yTopD := 0,
    yBotD := 0, xD := 0, pickX1D := 0, pickY1D := 0, pickX2D := 0, pickY2D := 0,
    outlineR := 0, outline := testOutline, fillD := (0, 0, 0) }

/-- A concrete draw-outcome record: every draw takes its first possible value. -/
def testRand : StageRand :=
  { labelD := 0, fontD := 0, invertR := 0, bgColorD := (0, 0, 0),
    fgColorD := (0, 0, 0), regionFillD := (0, 0, 0), sizeD := 0, n15 := 15,
    n20 := 20, n35 := 35, n50 := 50, xR := 0, yR := 0, beforeCountD := 0,
    afterCountD := 0, beforeD := fun _ => 0, afterD := fun _ => 0, floatCountQ := 0,
    floatD := fun _ => 0, outlineR := 0, eatR := 0, outline := testOutline,
    underline := testUnderline, eat := testEat, bg := testBg, effectD := 0,
    flt := fun _ => testFloat }

/-- Same draws but selecting label index 1. -/
def testRand1 : StageRand := { testRand with labelD := 1 }

/-- A font whose metrics vanish for the glyph `z` (and any text containing it), and
are a 10×12 box otherwise. -/
def zFont : FontInfo :=
  { path := "fonts/font.ttf", supported_glyphs := ['a', 'z'],
    bbox := fun _ _ t => if 'z' ∈ t then (0, 0, 0, 0) else (0, 0, 10, 12) }

/-- One labeled character `a`; the catalog font also claims to support `z`. -/
def zDS : Dataset := RecognizerTrainingDataset.init [zFont] [] ['a'] none

/-- Draws that compose one context character before the labeled one, choosing the
zero-box glyph `z` for it. -/
def zRand : StageRand := { testRand with beforeCountD := 1, beforeD := fun _ => 1 }

/-- Extent draws for the side-occlusion counterexample: the left rectangle extends
to column 1. -/
def cexEatRand : EatRand :=
  { colorD := (0, 0, 0), leftExt := 1, rightExt := 0, topExt := 0, botExt := 0 }

/-- The four rectangles `eat_sides` draws under `cexEatRand` for the box
`(3/5, 0)`–`(10, 10)` on a 128×128 canvas. -/
def cexRects : List Rect :=
  [⟨0, 0, 1, 128⟩, ⟨128, 0, 10, 128⟩, ⟨0, 0, 128, 0⟩, ⟨0, 128, 128, 10⟩]

theorem exceptBind_ok {α β : Type} {x : Except GenError α} {f : α → Except GenError β}
    {b : β} : x >>= f = .ok b ↔ ∃ a, x = .ok a ∧ f a = .ok b := by
  cases x <;> simp [Bind.bind, Except.bind]

theorem exceptPure_ok {α : Type} {a b : α} :
    (pure a : Except GenError α) = .ok b ↔ a = b := by
  simp [pure, Except.pure]

theorem need_ok {α : Type} {k : String} {o : Option α} {a : α} :
    need k o = .ok a ↔ o = some a := by
  cases o <;> simp [need]

theorem pyRandrange_lt {n d a : ℕ} (h : pyRandrange n d = some a) : a < n := by
  unfold pyRandrange at h
  split at h
  · exact absurd h (by simp)
  · injection h with h2
    subst h2
    exact Nat.mod_lt _ (Nat.pos_of_ne_zero (by assumption))

theorem pyChoice_mem {α : Type} {l : List α} {d : ℕ} {a : α}
    (h : pyChoice l d = some a) : a ∈ l := by
  unfold pyChoice at h
  exact List.get?_mem h

theorem fonts_supporting_glyph_mem {ds : Dataset} {g : Char} {fi : FontInfo}
    (h : fi ∈ ds.fonts_supporting_glyph g) : g ∈ fi.supported_glyphs := by
  unfold RecognizerTrainingDataset.fonts_supporting_glyph at h
  simpa using (List.of_mem_filter h)

/-- The rendered fonts with which a drawing trace draws a given character. -/
def drawnFonts : Content → Char → List RenderedFont
  | .flat _, _ => []
  | .resizeCrop src _ _ _ _ _ _, ch => drawnFonts src ch
  | .noise _ _, _ => []
  | .blended a b _, ch => drawnFonts a ch ++ drawnFonts b ch
  | .text base _ _ s f _ _, ch => (if ch ∈ s then [f] else []) ++ drawnFonts base ch
  | .rect base _ _ _ _ _, ch => drawnFonts base ch
  | .line base _ _ _ _ _ _, ch => drawnFonts base ch

theorem drawnFonts_drawText_self {im : Image} {xy : ℚ × ℚ} {s : List Char}
    {font : RenderedFont} {fill : Ink} {anchor : String} {ch : Char} (h : ch ∈ s) :
    font ∈ drawnFonts (drawText im xy s font fill anchor).content ch := by
  simp [drawText, drawnFonts, h]

theorem drawnFonts_drawText_mono {im : Image} {xy : ℚ × ℚ} {s : List Char}
    {font : RenderedFont} {fill : Ink} {anchor : String} {ch : Char} {f : RenderedFont}
    (h : f ∈ drawnFonts im.content ch) :
    f ∈ drawnFonts (drawText im xy s font fill anchor).content ch := by
  simp [drawText, drawnFonts]
  right
  exact h

theorem drawnFonts_drawRect {im : Image} {c0 c1 : ℚ × ℚ} {fill : Ink} {ch : Char} :
    drawnFonts (drawRect im c0 c1 fill).content ch = drawnFonts im.content ch := by
  simp [drawRect, drawnFonts]

theorem drawnFonts_drawLine {im : Image} {c0 c1 : ℚ × ℚ} {fill : Ink} {w : ℤ}
    {ch : Char} :
    drawnFonts (drawLine im c0 c1 fill w).content ch = drawnFonts im.content ch := by
  simp [drawLine, drawnFonts]

theorem drawnFonts_outlined_self {im : Image} {xy : ℚ × ℚ} {s : List Char}
    {font : RenderedFont} {fill : Ink} {anchor : String} {r : OutlineRand} {ch : Char}
    (h : ch ∈ s) :
    font ∈ drawnFonts (draw_outlined_text im xy s font fill anchor r).content ch := by
  unfold draw_outlined_text
  exact drawnFonts_drawText_self h

theorem drawnFonts_outlined_mono {im : Image} {xy : ℚ × ℚ} {s : List Char}
    {font : RenderedFont} {fill : Ink} {anchor : String} {r : OutlineRand} {ch : Char}
    {f : RenderedFont} (h : f ∈ drawnFonts im.content ch) :
    f ∈ drawnFonts (draw_outlined_text im xy s font fill anchor r).content ch := by
  unfold draw_outlined_text
  apply drawnFonts_drawText_mono
  generalize outlineOffsets (1 + pyRound |r.thickQ|) = offs
  induction offs generalizing im with
  | nil => exact h
  | cons o rest ih => exact ih (drawnFonts_drawText_mono h)

theorem drawnFonts_underlined_self {im : Image} {xy : ℚ × ℚ} {s : List Char}
    {font : RenderedFont} {fill : Ink} {anchor : String} {r : UnderlineRand} {ch : Char}
    (h : ch ∈ s) :
    font ∈ drawnFonts (draw_underlined_text im xy s font fill anchor r).content ch := by
  unfold draw_underlined_text
  rw [drawnFonts_drawLine]
  exact drawnFonts_drawText_self h

theorem drawnFonts_eat_sides {im out : Image} {l r t b : ℚ} {er : EatRand} {ch : Char}
    (h : eat_sides im l r t b er = some out) :
    drawnFonts out.content ch = drawnFonts im.content ch := by
  unfold eat_sides at h
  cases hrects : eat_rects (im.width : ℤ) (im.height : ℤ) l r t b er with
  | none => rw [hrects] at h; exact absurd h (by simp [Bind.bind])
  | some rects =>
    rw [hrects] at h
    simp [Bind.bind] at h
    subst h
    clear hrects
    induction rects generalizing im with
    | nil => rfl
    | cons R rest ih => simpa [drawnFonts_drawRect] using @ih (drawRect im _ _ _)

theorem drawnFonts_floatingPass {ds : Dataset} {mainFont : RenderedFont} {y b : ℤ}
    {fr : ℕ → FloatRand} {cs : List Char} {i : ℕ} {im out : Image} {ch : Char}
    {f : RenderedFont}
    (h : floatingPass ds mainFont y b fr cs i im = .ok out)
    (hmem : f ∈ drawnFonts im.content ch) : f ∈ drawnFonts out.content ch := by
  induction cs generalizing i im with
  | nil =>
    unfold floatingPass at h
    injection h with h
    subst h
    exact hmem
  | cons c rest ih =>
    unfold floatingPass at h
    simp only [exceptBind_ok, need_ok, exceptPure_ok] at h
    obtain ⟨fi, hfi, h⟩ := h
    obtain ⟨fs, hfs, h⟩ := h
    obtain ⟨fy, hfy, h⟩ := h
    split at h
    · exact ih h hmem
    · simp only [exceptBind_ok, need_ok, exceptPure_ok] at h
      obtain ⟨xv, hxv, h⟩ := h
      split at h
      · simp only [exceptBind_ok, need_ok, exceptPure_ok] at h
        obtain ⟨px, hpx, h⟩ := h
        obtain ⟨py, hpy, h⟩ := h
        obtain ⟨d2, hd2, h⟩ := h
        subst hd2
        exact ih h (drawnFonts_outlined_mono hmem)
      · simp only [exceptBind_ok, need_ok, exceptPure_ok] at h
        obtain ⟨px, hpx, h⟩ := h
        obtain ⟨py, hpy, h⟩ := h
        obtain ⟨d2, hd2, h⟩ := h
        subst hd2
        exact ih h (drawnFonts_drawText_mono hmem)

/-- What every stage generator guarantees on success when no transform is supplied:
the label indexes the character set; the returned region score is the glyph-shaped
`generate_only_char` canvas of the labeled character; and the sample image draws the
labeled character with a rendered font whose `FontInfo` supports that character. -/
def StagePost (ds : Dataset) (s : Sample) : Prop :=
  s.label < ds.characters.length ∧
  (∃ xy font fill, s.region_score =
    RecognizerTrainingDataset.generate_only_char xy [ds.characters.getD s.label ' ']
      font fill "mm") ∧
  ∃ f, f ∈ drawnFonts s.image.content (ds.characters.getD s.label ' ') ∧
    ds.characters.getD s.label ' ' ∈ f.info.supported_glyphs

theorem stage0_post {ds : Dataset} {r : StageRand} {s : Sample}
    (htr : ds.transform = none) (h : ds.generate_stage_0 r = .ok s) :
    StagePost ds s := by
  unfold RecognizerTrainingDataset.generate_stage_0 at h
  rw [htr] at h
  simp only [exceptBind_ok, need_ok, exceptPure_ok] at h
  obtain ⟨label, hlabel, h⟩ := h
  obtain ⟨font_info, hfi, h⟩ := h
  subst h
  refine ⟨pyRandrange_lt hlabel, ⟨(64, 64), font_info.get 32, BLACK_COLOR, rfl⟩,
    font_info.get 32, ?_, ?_⟩
  · exact drawnFonts_drawText_self (List.mem_singleton.mpr rfl)
  · exact fonts_supporting_glyph_mem (List.get?_mem hfi)

theorem stage1_post {ds : Dataset} {r : StageRand} {s : Sample}
    (htr : ds.transform = none) (h : ds.generate_stage_1 r = .ok s) :
    StagePost ds s := by
  unfold RecognizerTrainingDataset.generate_stage_1 at h
  rw [htr] at h
  simp only [exceptBind_ok, need_ok, exceptPure_ok] at h
  obtain ⟨label, hlabel, h⟩ := h
  obtain ⟨font_info, hfi, h⟩ := h
  subst h
  refine ⟨pyRandrange_lt hlabel, ?_, font_info.get 32, ?_, ?_⟩
  · exact ⟨_, _, Ink.gray 0, rfl⟩
  · exact drawnFonts_drawText_self (List.mem_singleton.mpr rfl)
  · exact fonts_supporting_glyph_mem (List.get?_mem hfi)

theorem stage2_post {ds : Dataset} {r : StageRand} {s : Sample}
    (htr : ds.transform = none) (h : ds.generate_stage_2 r = .ok s) :
    StagePost ds s := by
  unfold RecognizerTrainingDataset.generate_stage_2 at h
  rw [htr] at h
  simp only [exceptBind_ok, need_ok, exceptPure_ok] at h
  obtain ⟨label, hlabel, h⟩ := h
  obtain ⟨font_info, hfi, h⟩ := h
  subst h
  refine ⟨pyRandrange_lt hlabel, ?_, font_info.get 32, ?_, ?_⟩
  · exact ⟨_, _, Ink.gray 0, rfl⟩
  · exact drawnFonts_drawText_self (List.mem_singleton.mpr rfl)
  · exact fonts_supporting_glyph_mem (List.get?_mem hfi)

theorem stage3_post {ds : Dataset} {r : StageRand} {s : Sample}
    (htr : ds.transform = none) (h : ds.generate_stage_3 r = .ok s) :
    StagePost ds s := by
  unfold RecognizerTrainingDataset.generate_stage_3 at h
  rw [htr] at h
  simp only [exceptBind_ok, need_ok, exceptPure_ok] at h
  obtain ⟨label, hlabel, h⟩ := h
  obtain ⟨font_info, hfi, h⟩ := h
  obtain ⟨font_size, hsz, h⟩ := h
  subst h
  refine ⟨pyRandrange_lt hlabel, ?_, font_info.get font_size, ?_, ?_⟩
  · exact ⟨_, _, Ink.gray 0, rfl⟩
  · exact drawnFonts_drawText_self (List.mem_singleton.mpr rfl)
  · exact fonts_supporting_glyph_mem (List.get?_mem hfi)

theorem stage4_post {ds : Dataset} {r : StageRand} {s : Sample}
    (htr : ds.transform = none) (h : ds.generate_stage_4 r = .ok s) :
    StagePost ds s := by
  unfold RecognizerTrainingDataset.generate_stage_4 at h
  rw [htr] at h
  simp only [exceptBind_ok, need_ok, exceptPure_ok] at h
  obtain ⟨label, hlabel, h⟩ := h
  obtain ⟨font_info, hfi, h⟩ := h
  obtain ⟨font_size, hsz, h⟩ := h
  subst h
  refine ⟨pyRandrange_lt hlabel, ?_, font_info.get (max 8 font_size), ?_, ?_⟩
  · exact ⟨_, _, Ink.gray 0, rfl⟩
  · exact drawnFonts_drawText_self (List.mem_singleton.mpr rfl)
  · exact fonts_supporting_glyph_mem (pyChoice_mem hfi)

theorem stage5_post {ds : Dataset} {r : StageRand} {s : Sample}
    (htr : ds.transform = none) (h : ds.generate_stage_5 r = .ok s) :
    StagePost ds s := by
  unfold RecognizerTrainingDataset.generate_stage_5 at h
  rw [htr] at h
  simp only [exceptBind_ok, need_ok, exceptPure_ok] at h
  obtain ⟨label, hlabel, h⟩ := h
  obtain ⟨font_info, hfi, h⟩ := h
  obtain ⟨font_size, hsz, h⟩ := h
  subst h
  refine ⟨pyRandrange_lt hlabel, ?_, font_info.get (max 8 font_size), ?_, ?_⟩
  · exact ⟨_, _, Ink.gray 0, rfl⟩
  · exact drawnFonts_drawText_self (List.mem_singleton.mpr rfl)
  · exact fonts_supporting_glyph_mem (pyChoice_mem hfi)

theorem stage6_post {ds : Dataset} {r : StageRand} {s : Sample}
    (htr : ds.transform = none) (h : ds.generate_stage_6 r = .ok s) :
    StagePost ds s := by
  unfold RecognizerTrainingDataset.generate_stage_6 at h
  rw [htr] at h
  simp only [exceptBind_ok, need_ok, exceptPure_ok] at h
  obtain ⟨label, hlabel, h⟩ := h
  obtain ⟨font_info, hfi, h⟩ := h
  obtain ⟨font_size, hsz, h⟩ := h
  obtain ⟨before_count, hbc, h⟩ := h
  obtain ⟨after_count, hac, h⟩ := h
  obtain ⟨before, hbefore, h⟩ := h
  obtain ⟨after, hafter, h⟩ := h
  obtain ⟨u, hchk, h⟩ := h
  subst h
  refine ⟨pyRandrange_lt hlabel, ?_, font_info.get (max 8 font_size), ?_, ?_⟩
  · exact ⟨_, _, Ink.gray 0, rfl⟩
  · exact drawnFonts_drawText_self
      (List.mem_append_right _ (List.mem_cons_self _ _))
  · exact fonts_supporting_glyph_mem (pyChoice_mem hfi)

theorem stage7_post {ds : Dataset} {r : StageRand} {s : Sample}
    (htr : ds.transform = none) (h : ds.generate_stage_7 r = .ok s) :
    StagePost ds s := by
  unfold RecognizerTrainingDataset.generate_stage_7 at h
  rw [htr] at h
  simp only [exceptBind_ok, need_ok, exceptPure_ok] at h
  obtain ⟨label, hlabel, h⟩ := h
  obtain ⟨font_info, hfi, h⟩ := h
  obtain ⟨font_size, hsz, h⟩ := h
  obtain ⟨before_count, hbc, h⟩ := h
  obtain ⟨after_count, hac, h⟩ := h
  obtain ⟨before, hbefore, h⟩ := h
  obtain ⟨after, hafter, h⟩ := h
  obtain ⟨u, hchk, h⟩ := h
  obtain ⟨bg, hbg, h⟩ := h
  have hmem : (ds.characters.getD label ' ') ∈
      before ++ (ds.characters.getD label ' ') :: after :=
    List.mem_append_right _ (List.mem_cons_self _ _)
  split at h
  · simp only [exceptBind_ok, need_ok, exceptPure_ok] at h
    obtain ⟨eaten, heat, h⟩ := h
    subst h
    refine ⟨pyRandrange_lt hlabel, ⟨_, _, Ink.gray 0, rfl⟩,
      font_info.get (max 8 font_size), ?_, ?_⟩
    · rw [drawnFonts_eat_sides heat]
      split
      · exact drawnFonts_outlined_self hmem
      · exact drawnFonts_drawText_self hmem
    · exact fonts_supporting_glyph_mem (pyChoice_mem hfi)
  · simp only [exceptBind_ok, need_ok, exceptPure_ok] at h
    obtain ⟨smp, hsmp, h⟩ := h
    subst hsmp
    subst h
    refine ⟨pyRandrange_lt hlabel, ⟨_, _, Ink.gray 0, rfl⟩,
      font_info.get (max 8 font_size), ?_, ?_⟩
    · split
      · exact drawnFonts_outlined_self hmem
      · exact drawnFonts_drawText_self hmem
    · exact fonts_supporting_glyph_mem (pyChoice_mem hfi)

theorem stage8_post {ds : Dataset} {r : StageRand} {s : Sample}
    (htr : ds.transform = none) (h : ds.generate_stage_8 r = .ok s) :
    StagePost ds s := by
  unfold RecognizerTrainingDataset.generate_stage_8 at h
  rw [htr] at h
  simp only [exceptBind_ok, need_ok, exceptPure_ok] at h
  obtain ⟨label, hlabel, h⟩ := h
  obtain ⟨font_info, hfi, h⟩ := h
  obtain ⟨font_size, hsz, h⟩ := h
  obtain ⟨before_count, hbc, h⟩ := h
  obtain ⟨after_count, hac, h⟩ := h
  obtain ⟨before, hbefore, h⟩ := h
  obtain ⟨after, hafter, h⟩ := h
  obtain ⟨floats, hfloats, h⟩ := h
  obtain ⟨u, hchk, h⟩ := h
  obtain ⟨bg, hbg, h⟩ := h
  obtain ⟨effect, heff, h⟩ := h
  obtain ⟨drawn, hfp, h⟩ := h
  have hmem : (ds.characters.getD label ' ') ∈
      before ++ (ds.characters.getD label ' ') :: after :=
    List.mem_append_right _ (List.mem_cons_self _ _)
  have hdrawn : font_info.get (max 8 font_size) ∈
      drawnFonts drawn.content (ds.characters.getD label ' ') := by
    apply drawnFonts_floatingPass hfp
    split
    · exact drawnFonts_outlined_self hmem
    · split
      · exact drawnFonts_underlined_self hmem
      · exact drawnFonts_drawText_self hmem
  split at h
  · simp only [exceptBind_ok, need_ok, exceptPure_ok] at h
    obtain ⟨eaten, heat, h⟩ := h
    subst h
    refine ⟨pyRandrange_lt hlabel, ⟨_, _, Ink.gray 0, rfl⟩,
      font_info.get (max 8 font_size), ?_, ?_⟩
    · rw [drawnFonts_eat_sides heat]
      exact hdrawn
    · exact fonts_supporting_glyph_mem (pyChoice_mem hfi)
  · simp only [exceptBind_ok, need_ok, exceptPure_ok] at h
    obtain ⟨smp, hsmp, h⟩ := h
    subst hsmp
    subst h
    refine ⟨pyRandrange_lt hlabel, ⟨_, _, Ink.gray 0, rfl⟩,
      font_info.get (max 8 font_size), ?_, ?_⟩
    · exact hdrawn
    · exact fonts_supporting_glyph_mem (pyChoice_mem hfi)

theorem stageGenerator_post {i : ℕ} (hi : i ≤ 8) {ds : Dataset} {r : StageRand}
    {s : Sample} (htr : ds.transform = none) (h : stageGenerator i ds r = .ok s) :
    StagePost ds s := by
  interval_cases i
  · exact stage0_post htr h
  · exact stage1_post htr h
  · exact stage2_post htr h
  · exact stage3_post htr h
  · exact stage4_post htr h
  · exact stage5_post htr h
  · exact stage6_post htr h
  · exact stage7_post htr h
  · exact stage8_post htr h

theorem only_char_ne_region_score (xy : ℚ × ℚ) (text : List Char)
    (font : RenderedFont) (fill : Ink) (anchor : String) (w h : ℕ) (tl br : ℚ × ℚ) :
    RecognizerTrainingDataset.generate_only_char xy text font fill anchor ≠
      RecognizerTrainingDataset.generate_region_score w h tl br := by
  intro hc
  have hcont := congrArg Image.content hc
  simp [RecognizerTrainingDataset.generate_only_char,
    RecognizerTrainingDataset.generate_region_score, drawText, drawRect,
    Image.new] at hcont

/-- C1: for every stage generator 0 through 8 (run without an external transform),
whenever generation returns a sample — in particular whenever the catalog holds at
least one font supporting the sampled character, which generation requires — the
returned label is a valid index into the character set, and the character at that
index belongs to the `supported_glyphs` of the `FontInfo` whose rendered font is
used to draw the labeled character in the sample image. -/
theorem claim1_label_and_font_support (i : ℕ) (hi : i ≤ 8) (ds : Dataset)
    (r : StageRand) (s : Sample) (htr : ds.transform = none)
    (h : stageGenerator i ds r = .ok s) :
    s.label < ds.characters.length ∧
    ∃ f, f ∈ drawnFonts s.image.content (ds.characters.getD s.label ' ') ∧
      ds.characters.getD s.label ' ' ∈ f.info.supported_glyphs :=
  ⟨(stageGenerator_post hi htr h).1, (stageGenerator_post hi htr h).2.2⟩

/-- Witness for C1: stage 0 on the concrete dataset succeeds and satisfies the
claim. -/
theorem claim1_witness :
    (0 : ℕ) ≤ 8 ∧ testDS.transform = none ∧
    stageGenerator 0 testDS testRand =
      .ok (okSample (stageGenerator 0 testDS testRand)) ∧
    ((okSample (stageGenerator 0 testDS testRand)).label <
        testDS.characters.length ∧
      ∃ f, f ∈ drawnFonts (okSample (stageGenerator 0 testDS testRand)).image.content
          (testDS.characters.getD (okSample (stageGenerator 0 testDS testRand)).label
            ' ') ∧
        testDS.characters.getD (okSample (stageGenerator 0 testDS testRand)).label ' '
          ∈ f.info.supported_glyphs) :=
  ⟨by norm_num, rfl, rfl,
    claim1_label_and_font_support 0 (by norm_num) testDS testRand _ rfl rfl⟩

/-- C2: for every stage generator 0 through 8 (run without an external transform),
the returned region score is the glyph-shaped construction (`generate_only_char`:
the labeled glyph drawn in solid fill on a blank canvas), computed after — and
shadowing — the rectangle construction, which never reaches the returned sample:
the returned region score differs from every `generate_region_score` rectangle
canvas. -/
theorem claim2_region_score_is_glyph_fill (i : ℕ) (hi : i ≤ 8) (ds : Dataset)
    (r : StageRand) (s : Sample) (htr : ds.transform = none)
    (h : stageGenerator i ds r = .ok s) :
    (∃ xy font fill, s.region_score =
      RecognizerTrainingDataset.generate_only_char xy
        [ds.characters.getD s.label ' '] font fill "mm") ∧
    ∀ w h2 tl br, s.region_score ≠
      RecognizerTrainingDataset.generate_region_score w h2 tl br := by
  obtain ⟨xy, font, fill, heq⟩ := (stageGenerator_post hi htr h).2.1
  refine ⟨⟨xy, font, fill, heq⟩, fun w h2 tl br hc => ?_⟩
  rw [heq] at hc
  exact only_char_ne_region_score _ _ _ _ _ _ _ _ _ hc

/-- Witness for C2: stage 0 on the concrete dataset succeeds and satisfies the
claim. -/
theorem claim2_witness :
    (0 : ℕ) ≤ 8 ∧ testDS.transform = none ∧
    stageGenerator 0 testDS testRand =
      .ok (okSample (stageGenerator 0 testDS testRand)) ∧
    ((∃ xy font fill, (okSample (stageGenerator 0 testDS testRand)).region_score =
      RecognizerTrainingDataset.generate_only_char xy
        [testDS.characters.getD (okSample (stageGenerator 0 testDS testRand)).label
          ' '] font fill "mm") ∧
    ∀ w h2 tl br, (okSample (stageGenerator 0 testDS testRand)).region_score ≠
      RecognizerTrainingDataset.generate_region_score w h2 tl br) :=
  ⟨by norm_num, rfl, rfl,
    claim2_region_score_is_glyph_fill 0 (by norm_num) testDS testRand _ rfl rfl⟩

/-- C3 counterexample: at stage 0 on a concrete dataset with no transform, the
returned region score is a 128×128 canvas, not the claimed 64×64 half-resolution
canvas. -/
theorem claim3_counterexample :
    testDS.transform = none ∧
    regionWidth (stageGenerator 0 testDS testRand) = some 128 ∧
    ¬ regionWidth (stageGenerator 0 testDS testRand) = some 64 := by
  have h : regionWidth (stageGenerator 0 testDS testRand) = some 128 := rfl
  exact ⟨rfl, h, fun hc => by rw [h] at hc; exact absurd hc (by decide)⟩

/-- C3 (amended): for every stage generator 0 through 8 with no external transform,
the returned region score is a single-channel (`L`) canvas at the full 128×128
resolution of the image canvas; the 64×64 half-resolution rectangle canvas is
computed but discarded. -/
theorem claim3_region_score_full_resolution (i : ℕ) (hi : i ≤ 8) (ds : Dataset)
    (r : StageRand) (s : Sample) (htr : ds.transform = none)
    (h : stageGenerator i ds r = .ok s) :
    s.region_score.mode = "L" ∧ s.region_score.width = 128 ∧
      s.region_score.height = 128 := by
  obtain ⟨xy, font, fill, heq⟩ := (stageGenerator_post hi htr h).2.1
  rw [heq]
  exact ⟨rfl, rfl, rfl⟩

/-- Witness for C3 (amended): stage 0 on the concrete dataset. -/
theorem claim3_witness :
    (0 : ℕ) ≤ 8 ∧ testDS.transform = none ∧
    stageGenerator 0 testDS testRand =
      .ok (okSample (stageGenerator 0 testDS testRand)) ∧
    ((okSample (stageGenerator 0 testDS testRand)).region_score.mode = "L" ∧
     (okSample (stageGenerator 0 testDS testRand)).region_score.width = 128 ∧
     (okSample (stageGenerator 0 testDS testRand)).region_score.height = 128) :=
  ⟨by norm_num, rfl, rfl,
    claim3_region_score_full_resolution 0 (by norm_num) testDS testRand _ rfl rfl⟩

/-- C4 counterexample: at the integer curriculum value `s = 3` with the legitimate
uniform draw `r = 0` (which `random.random()` can return), the scheduler selects
`high = 4`, outside the claimed interval `[floor(s), min(ceil(s), 8)] = [3, 3]`. -/
theorem claim4_counterexample :
    (0 : ℚ) ≤ 0 ∧ (0 : ℚ) < 1 ∧ selectStage 3 0 = 4 ∧
      ¬ selectStage 3 0 ≤ min ⌈(3 : ℚ)⌉ 8 := by
  have h : selectStage 3 0 = 4 := by
    unfold selectStage
    norm_num
  refine ⟨le_refl 0, by norm_num, h, ?_⟩
  rw [h]
  norm_num

/-- C4 (amended): the scheduler computes `low = floor(s)`, `high = low + 1`, selects
`low` when the draw exceeds `s - low` and `high` otherwise, and clamps the selection
to at most 8; consequently, for every real `s` and every draw, the selected stage
lies in `[min(floor(s), 8), min(floor(s) + 1, 8)]`.  (At integer `s`, a draw of
exactly 0 selects `floor(s) + 1`, so `ceil(s)` does not bound the selection.) -/
theorem claim4_selected_stage_bounds (s r : ℚ) :
    min ⌊s⌋ 8 ≤ selectStage s r ∧ selectStage s r ≤ min (⌊s⌋ + 1) 8 := by
  simp only [selectStage]
  split <;> omega

/-- C5: on a concrete catalog whose font reports a zero-size bounding box for the
context character `z`, stage 6 halts with a bare `TypeError` (its diagnostic
f-string subscripts `font_info[...]`, unsupported on the `FontInfo` record), while
stages 7 and 8 halt with the diagnostic naming the character and the font file. -/
theorem claim5_stage6_diagnostic_lost :
    zDS.generate_stage_6 zRand = .error (.runtime "TypeError") ∧
    zDS.generate_stage_7 zRand = .error (.fatal "z is missing from font.ttf") ∧
    zDS.generate_stage_8 zRand = .error (.fatal "z is missing from font.ttf") :=
  ⟨rfl, rfl, rfl⟩

theorem optBind_some {α β : Type} {x : Option α} {f : α → Option β} {b : β} :
    x >>= f = some b ↔ ∃ a, x = some a ∧ f a = some b := by
  cases x <;> simp [Bind.bind]

theorem optPure_some {α : Type} {a b : α} : (pure a : Option α) = some b ↔ a = b := by
  simp [pure]

theorem pyRandint_bounds {a b : ℤ} {d : ℕ} {v : ℤ} (h : pyRandint a b d = some v) :
    a ≤ b ∧ a ≤ v ∧ v ≤ b := by
  unfold pyRandint at h
  split at h
  · exact absurd h (by simp)
  · injection h with h2
    subst h2
    rename_i hba
    have hpos : 0 < b - a + 1 := by omega
    have h1 := Int.emod_nonneg (d : ℤ) (by omega : b - a + 1 ≠ 0)
    have h2 := Int.emod_lt_of_pos (d : ℤ) hpos
    omega

/-- C6 counterexample: with the box `left = 3/5, right = 10, top = 0, bottom = 10`
on a 128×128 canvas — valid and non-degenerate as the claim requires — the draw that
takes the left extent to `round(3/5) = 1` paints the pixel `(1, 1)`, which lies
strictly inside the supplied rectangle (`3/5 < 1 < 10`, `0 < 1 < 10`). -/
theorem claim6_counterexample :
    ((0 : ℚ) ≤ 3/5 ∧ (3/5 : ℚ) ≤ 10 ∧ (10 : ℚ) ≤ 128 ∧
     (0 : ℚ) ≤ 0 ∧ (0 : ℚ) ≤ 10 ∧ (10 : ℚ) ≤ 128) ∧
    eat_rects 128 128 (3/5) 10 0 10 cexEatRand = some cexRects ∧
    ((3/5 : ℚ) < 1 ∧ (1 : ℚ) < 10 ∧ (0 : ℚ) < 1 ∧ (1 : ℚ) < 10) ∧
    ∃ R ∈ cexRects, inRect R 1 1 := by
  have h35 : pyRound (3/5 : ℚ) = 1 := by unfold pyRound; norm_num
  have h10 : pyRound (10 : ℚ) = 10 := by unfold pyRound; norm_num
  have h0 : pyRound (0 : ℚ) = 0 := by unfold pyRound; norm_num
  have hrects : eat_rects 128 128 (3/5) 10 0 10 cexEatRand = some cexRects := by
    simp only [eat_rects, h35, h10, h0]
    decide
  refine ⟨by norm_num, hrects, by norm_num, ?_⟩
  decide

/-- C6 (amended): for every canvas and box, and every outcome of the internal random
extents on which `eat_sides` succeeds, no pixel strictly inside the ROUNDED
rectangle `(round(left), round(top))`–`(round(right), round(bottom))` is painted;
because the box is rounded first (Python half-to-even), a painted rectangle can
extend up to half a pixel past a fractional supplied edge, so the guarantee holds
for the rounded box rather than the supplied real-valued box (they agree whenever
the supplied box has integer coordinates). -/
theorem claim6_eat_sides_spares_rounded_box (w h : ℤ) (left right top bottom : ℚ)
    (er : EatRand) (rects : List Rect)
    (hsome : eat_rects w h left right top bottom er = some rects) (x y : ℤ)
    (hx1 : pyRound left < x) (hx2 : x < pyRound right)
    (hy1 : pyRound top < y) (hy2 : y < pyRound bottom) :
    ∀ R ∈ rects, ¬ inRect R x y := by
  unfold eat_rects at hsome
  simp only [optBind_some, optPure_some] at hsome
  obtain ⟨a, ha, hsome⟩ := hsome
  obtain ⟨b2, hb2, hsome⟩ := hsome
  obtain ⟨c, hc, hsome⟩ := hsome
  obtain ⟨d, hd, hsome⟩ := hsome
  subst hsome
  have hA := pyRandint_bounds ha
  have hB := pyRandint_bounds hb2
  have hC := pyRandint_bounds hc
  have hD := pyRandint_bounds hd
  intro R hR
  simp only [List.mem_cons, List.not_mem_nil, or_false] at hR
  rcases hR with rfl | rfl | rfl | rfl <;>
    (unfold inRect; simp only; intro hcontra; omega)

/-- Witness for C6 (amended): the concrete `eat_rects` outcome of the counterexample
spares the pixel `(2, 1)`, strictly inside the rounded box. -/
theorem claim6_witness :
    eat_rects 128 128 (3/5) 10 0 10 cexEatRand = some cexRects ∧
    pyRound (3/5 : ℚ) < 2 ∧ (2 : ℤ) < pyRound 10 ∧ pyRound 0 < 1 ∧
    (1 : ℤ) < pyRound 10 ∧
    ∀ R ∈ cexRects, ¬ inRect R 2 1 := by
  have h35 : pyRound (3/5 : ℚ) = 1 := by unfold pyRound; norm_num
  have h10 : pyRound (10 : ℚ) = 10 := by unfold pyRound; norm_num
  have h0 : pyRound (0 : ℚ) = 0 := by unfold pyRound; norm_num
  have hrects : eat_rects 128 128 (3/5) 10 0 10 cexEatRand = some cexRects := by
    simp only [eat_rects, h35, h10, h0]
    decide
  exact ⟨hrects, by rw [h35]; decide, by rw [h10]; decide, by rw [h0]; decide,
    by rw [h10]; decide,
    claim6_eat_sides_spares_rounded_box 128 128 (3/5) 10 0 10 cexEatRand cexRects
      hrects 2 1 (by rw [h35]; decide) (by rw [h10]; decide) (by rw [h0]; decide)
      (by rw [h10]; decide)⟩

/-- C7 counterexample: the three background composition modes are selected by
`random.choices` with no weights, so each mode accounts for exactly one outcome per
residue cycle — the noise-blended mode is not more probable than the
real-image-crop mode. -/
theorem claim7_counterexample :
    modeDrawCount "noise" = 1 ∧ modeDrawCount "img" = 1 ∧
    modeDrawCount "plain" = 1 ∧
    ¬ modeDrawCount "img" < modeDrawCount "noise" := by
  exact ⟨rfl, rfl, rfl, by decide⟩

/-- C7 (amended): `generate_background` selects among its three composition modes
uniformly — `random.choices` is called without a `weights` argument, so the modes
noise-blended, real-image-crop and flat-color each carry the same selection weight,
and every draw selects one of the three modes. -/
theorem claim7_uniform_mode_selection :
    modeDrawCount "noise" = modeDrawCount "img" ∧
    modeDrawCount "img" = modeDrawCount "plain" ∧
    ∀ d : ℕ, chooseBackgroundMode d ∈ backgroundModes := by
  refine ⟨rfl, rfl, fun d => ?_⟩
  have h3 : d % 3 = 0 ∨ d % 3 = 1 ∨ d % 3 = 2 := by omega
  rcases h3 with h | h | h <;>
    simp [chooseBackgroundMode, pyChoices, pyChoice, weightedExpand, backgroundModes,
      List.replicate, h]

/-- C8 counterexample: constructing the dataset over an empty background folder
succeeds — `__init__` records the empty list and performs no validation — and the
failure surfaces only at a per-sample background request, where `random.choice` on
the empty list raises. -/
theorem claim8_counterexample :
    (RecognizerTrainingDataset.init [testFont] [] ['a'] none).background_images =
      [] ∧
    (RecognizerTrainingDataset.init [testFont] [] ['a'] none).characters = ['a'] ∧
    RecognizerTrainingDataset.random_background_image
      (RecognizerTrainingDataset.init [testFont] [] ['a'] none) 128 128 testBg =
      none :=
  ⟨rfl, rfl, rfl⟩

/-- C8 (amended): dataset construction performs no validation of the background
catalog — it succeeds on an empty folder — and the failure is deferred to the
per-sample call: `random_background_image` returns no image whenever the stored
list is empty, and whenever every stored image is degenerate (less than 2 pixels
wide or tall, so the crop `randint` ranges are empty). -/
theorem claim8_background_failure_deferred (fi : List FontInfo) (ch : List Char)
    (tr : Option (Image → Image)) (w h : ℕ) (r : BgRand) :
    (RecognizerTrainingDataset.init fi [] ch tr).background_images = [] ∧
    RecognizerTrainingDataset.random_background_image
      (RecognizerTrainingDataset.init fi [] ch tr) w h r = none ∧
    ∀ bgs : List Image, (∀ img ∈ bgs, img.width < 2 ∨ img.height < 2) →
      RecognizerTrainingDataset.random_background_image
        (RecognizerTrainingDataset.init fi bgs ch tr) w h r = none := by
  refine ⟨rfl, rfl, fun bgs hdeg => ?_⟩
  unfold RecognizerTrainingDataset.random_background_image
  cases hc : pyChoice
      (RecognizerTrainingDataset.init fi bgs ch tr).background_images r.bgImgD with
  | none => simp [Bind.bind, Option.bind, hc]
  | some img =>
    have hmem : img ∈ bgs := pyChoice_mem hc
    rcases hdeg img hmem with hw | hh
    · have h1 : pyRandint 0 ((img.width : ℤ) - 2) r.crop1 = none := by
        unfold pyRandint
        rw [if_pos (by omega)]
      simp [Bind.bind, Option.bind, hc, h1]
    · rcases hw2 : pyRandint 0 ((img.width : ℤ) - 2) r.crop1 with _ | v1
      · simp [Bind.bind, Option.bind, hc, hw2]
      · rcases hr2 : pyRandint (v1 + 1) (img.width : ℤ) r.crop2 with _ | v2
        · simp [Bind.bind, Option.bind, hc, hw2, hr2]
        · have h3 : pyRandint 0 ((img.height : ℤ) - 2) r.crop3 = none := by
            unfold pyRandint
            rw [if_pos (by omega)]
          simp [Bind.bind, Option.bind, hc, hw2, hr2, h3]

/-- A degenerate (1×1) background image. -/
def tinyImage : Image := Image.new "RGB" 1 1 (Ink.rgb 0 0 0)

/-- Witness for C8 (amended): the empty catalog and a catalog holding only a 1×1
image both make the per-sample background request fail. -/
theorem claim8_witness :
    (RecognizerTrainingDataset.init [testFont] [] ['a'] none).background_images =
      [] ∧
    RecognizerTrainingDataset.random_background_image
      (RecognizerTrainingDataset.init [testFont] [] ['a'] none) 128 128 testBg =
      none ∧
    RecognizerTrainingDataset.random_background_image
      (RecognizerTrainingDataset.init [testFont] [tinyImage] ['a'] none) 128 128
      testBg = none := by
  obtain ⟨h1, h2, h3⟩ :=
    claim8_background_failure_deferred [testFont] ['a'] none 128 128 testBg
  refine ⟨h1, h2, h3 [tinyImage] ?_⟩
  intro img him
  rw [List.mem_singleton] at him
  subst him
  left
  decide

/-- C9: whenever the mutable curriculum field is at least 0, `generate` selects a
stage matched by one of the nine dispatch branches and returns that generator's
result triple; with the field below 0, the selection can be a negative integer
that falls through all nine branches, so `generate` returns `None` without
raising — the public interface does not reject negative curriculum values. -/
theorem claim9_negative_stage_falls_through :
    (∀ (ds : Dataset) (stageR : ℚ) (r : StageRand), 0 ≤ ds.stage →
      (ds.generate stageR r).isSome) ∧
    (∃ (ds : Dataset) (stageR : ℚ) (r : StageRand), ds.stage < 0 ∧
      ds.generate stageR r = none) := by
  constructor
  · intro ds stageR r hs
    have hfl : (0 : ℤ) ≤ ⌊ds.stage⌋ := Int.floor_nonneg.mpr hs
    have hmem : selectStage ds.stage stageR = min ⌊ds.stage⌋ 8 ∨
        selectStage ds.stage stageR = min (⌊ds.stage⌋ + 1) 8 := by
      simp only [selectStage]
      split
      · exact Or.inl rfl
      · exact Or.inr rfl
    simp only [RecognizerTrainingDataset.generate]
    have hcase : selectStage ds.stage stageR = 0 ∨ selectStage ds.stage stageR = 1 ∨
        selectStage ds.stage stageR = 2 ∨ selectStage ds.stage stageR = 3 ∨
        selectStage ds.stage stageR = 4 ∨ selectStage ds.stage stageR = 5 ∨
        selectStage ds.stage stageR = 6 ∨ selectStage ds.stage stageR = 7 ∨
        selectStage ds.stage stageR = 8 := by
      rcases hmem with h | h <;> rw [h] at * <;> omega
    rcases hcase with h | h | h | h | h | h | h | h | h <;> simp [h]
  · refine ⟨{ testDS with stage := -1 }, 1/2, testRand, by norm_num, ?_⟩
    have hsel : selectStage ({ testDS with stage := -1 } : Dataset).stage (1/2) =
        -1 := by
      show selectStage (-1 : ℚ) (1/2) = -1
      unfold selectStage
      norm_num
    simp only [RecognizerTrainingDataset.generate]
    rw [hsel]
    norm_num

/-- Witness for C9: the concrete dataset at curriculum value 0 yields a result. -/
theorem claim9_witness :
    0 ≤ testDS.stage ∧ (testDS.generate (1/2) testRand).isSome :=
  ⟨le_refl 0,
    claim9_negative_stage_falls_through.1 testDS (1/2) testRand (le_refl 0)⟩

/-- C10: `__getitem__` ignores its index argument: for any two indices, from the
same random-source state the two accesses run the identical computation and return
identical samples; and the result depends only on the random state, so the same
index accessed with an advanced random source returns a different sample. -/
theorem claim10_getitem_index_independent :
    (∀ (ds : Dataset) (i j : ℤ) (stageR : ℚ) (r : StageRand),
      ds.getItem i stageR r = ds.getItem j stageR r) ∧
    (∃ (ds : Dataset) (i : ℤ) (stageR : ℚ) (r₁ r₂ : StageRand),
      ds.getItem i stageR r₁ ≠ ds.getItem i stageR r₂) := by
  constructor
  · intro ds i j stageR r
    rfl
  · refine ⟨testDS, 0, 1/2, testRand, testRand1, fun hc => ?_⟩
    have hsel : selectStage testDS.stage (1/2) = 0 := by
      show selectStage 0 (1/2) = 0
      unfold selectStage
      norm_num
    have h1 : sampleLabel (testDS.getItem 0 (1/2) testRand) = some 0 := by
      simp only [RecognizerTrainingDataset.getItem,
        RecognizerTrainingDataset.generate]
      rw [hsel]
      rfl
    have h2 : sampleLabel (testDS.getItem 0 (1/2) testRand1) = some 1 := by
      simp only [RecognizerTrainingDataset.getItem,
        RecognizerTrainingDataset.generate]
      rw [hsel]
      rfl
    rw [hc, h2] at h1
    exact absurd h1 (by decide)

/-- Witness for C10: two different concrete indices yield the identical result. -/
theorem claim10_witness :
    testDS.getItem 0 (1/2) testRand = testDS.getItem 5 (1/2) testRand :=
  claim10_getitem_index_independent.1 testDS 0 5 (1/2) testRand

end KanjiRec
